import Mathlib

set_option maxRecDepth 40000

/-
Verification of the style-resolution engine in src/core/src/style.rs:
the style value union, style keys and tables, the cascade resolver
(Styled::style_val), the theme registry, and the typed coercions.

Embedding conventions:
* Rust f32/f64 style values are carried verbatim by the engine (no
  arithmetic is performed on them), so they are embedded as Rat; u32 is
  embedded as Nat for the same reason.
* HashMap is embedded as an association list: insert prepends a binding
  and lookup returns the first binding for the key, which realises the
  replace-on-insert semantics of HashMap::insert / HashMap::get.
* The process-wide theme registry (a Mutex-protected global) is embedded
  by explicit state passing: every function that reads the registry takes
  the current Style table as an argument, and set_current_style is the
  state transition that replaces it.
* Rust panic (in the coercion impls) is embedded as Except.error carrying
  the data the panic message formats.
-/

/-- Border widths for the four sides of a box, from struct BorderWidth
(f32 fields embedded as Rat). -/
structure BorderWidth where
  top : Rat
  left : Rat
  bottom : Rat
  right : Rat

/-- Vertical alignment variants, from enum VerticalPosition. -/
inductive VerticalPosition where
  | Bottom
  | Center
  | Top

/-- Default for VerticalPosition is Bottom, from impl Default. -/
def VerticalPosition.default : VerticalPosition := VerticalPosition.Bottom

/-- Horizontal alignment variants, from enum HorizontalPosition. -/
inductive HorizontalPosition where
  | Left
  | Center
  | Right

/-- Default for HorizontalPosition is Right, from impl Default. -/
def HorizontalPosition.default : HorizontalPosition := HorizontalPosition.Right

/-- Named font weights, from enum FontWeight. -/
inductive FontWeight where
  | Thin
  | ExtraLight
  | Light
  | Normal
  | Medium
  | Semibold
  | Bold
  | ExtraBold
  | Black

/-- The numeric discriminant of each FontWeight variant (100 .. 900),
from the enum declaration. -/
def FontWeight.weight : FontWeight → Nat
  | .Thin => 100
  | .ExtraLight => 200
  | .Light => 300
  | .Normal => 400
  | .Medium => 500
  | .Semibold => 600
  | .Bold => 700
  | .ExtraBold => 800
  | .Black => 900

/-- Default for FontWeight is Normal, from impl Default. -/
def FontWeight.default : FontWeight := FontWeight.Normal

/-- Modelled from the spec: the Color type of crate::types, which is not
under src/. The style engine stores and returns colors without inspecting
them, so colors are modelled by the constructions the source uses: the
named constants, Color::rgb, and the From f64 conversion used by the
default table (Into::<Color>::into). -/
inductive Color where
  | black
  | white
  | blue
  | transparent
  | lightGrey
  | midGrey
  | darkGrey
  | rgb (r g b : Rat)
  | ofFloat (v : Rat)

/-- Modelled from the spec: the layout Dimension type of crate::types,
which is not under src/; its internals are out of scope (spec section 1),
only value identity matters to the style engine. -/
structure Dimension where
  val : Rat

/-- Modelled from the spec: the Size type of crate::layout, which is not
under src/; a width and height pair. -/
structure Size where
  width : Rat
  height : Rat

/-- Modelled from the spec: the size constructor used by the default
table (two arguments: width and height; the one-argument form of the
source uses the same value for both). -/
def size (w h : Rat) : Size := Size.mk w h

/-- Modelled from the spec: the Point type of crate::types, which is not
under src/. -/
structure Point where
  x : Rat
  y : Rat

/-- Modelled from the spec: the Pos type of crate::types, which is not
under src/. -/
structure Pos where
  x : Rat
  y : Rat
  z : Rat

/-- Modelled from the spec: the Rect type of crate::types, which is not
under src/. -/
structure Rect where
  pos : Pos
  size : Size

/-- Modelled from the spec: the Layout type of crate::layout, which is
not under src/; the style engine stores and returns layouts without
inspecting them, so a layout is modelled as an abstract value. -/
structure Layout where
  data : Nat

/-- The closed union of style values, from enum StyleVal. -/
inductive StyleVal where
  | Dimension (d : Dimension)
  | Size (s : Size)
  | Rect (r : Rect)
  | Point (p : Point)
  | Pos (p : Pos)
  | Color (c : Color)
  | Layout (l : Layout)
  | HorizontalPosition (h : HorizontalPosition)
  | VerticalPosition (v : VerticalPosition)
  | BorderWidth (b : BorderWidth)
  | FontWeight (w : FontWeight)
  | Float (x : Rat)
  | Int (n : Nat)
  | Bool (b : Bool)
  | String (s : String)

/-- The identity triple addressing one cascade entry, from struct
StyleKey (the class field is named cls here because class is a reserved
word in Lean). -/
structure StyleKey where
  struct_name : String
  parameter_name : String
  cls : Option String
deriving DecidableEq

/-- StyleKey::new. -/
def StyleKey.new (struct_name parameter_name : String) (cls : Option String) : StyleKey :=
  StyleKey.mk struct_name parameter_name cls

/-- Embedding of HashMap as an association list: type StyleMap. -/
def StyleMap : Type := List (StyleKey × StyleVal)

/-- Embedding of HashMap as an association list: type StyleOverrideMap. -/
def StyleOverrideMap : Type := List (String × StyleVal)

/-- Embedding of HashMap::get: the first binding for the key, if any. -/
def assocFind {κ : Type} [DecidableEq κ] : List (κ × StyleVal) → κ → Option StyleVal
  | [], _ => none
  | (k, v) :: rest, k0 => if k = k0 then some v else assocFind rest k0

/-- A complete theme: struct Style, a map from StyleKey to StyleVal. -/
structure Style where
  entries : List (StyleKey × StyleVal)

/-- Embedding of HashMap::insert on a Style map: prepend the binding, so
that lookup finds the new value (replace semantics). -/
def Style.insertEntry (s : Style) (k : StyleKey) (v : StyleVal) : Style :=
  Style.mk ((k, v) :: s.entries)

/-- Style::add: insert the binding and return the table. -/
def Style.add (s : Style) (k : StyleKey) (v : StyleVal) : Style :=
  s.insertEntry k v

/-- Style::get: look the key up in the map. -/
def Style.get (s : Style) (k : StyleKey) : Option StyleVal :=
  assocFind s.entries k

/-- Style::style: look up the class-less key for a component parameter. -/
def Style.style (s : Style) (component parameter_name : String) : Option StyleVal :=
  s.get (StyleKey.mk component parameter_name none)

/-- Style::style_for_class: look up the class-scoped key. -/
def Style.style_for_class (s : Style) (component parameter_name cl : String) : Option StyleVal :=
  s.get (StyleKey.mk component parameter_name (some cl))

/-- Embedding of HashMap::from: start from the empty map and insert the
listed bindings in order (so a later binding for a key replaces an
earlier one). -/
def Style.ofList (l : List (StyleKey × StyleVal)) : Style :=
  l.foldl (fun s kv => s.insertEntry kv.1 kv.2) (Style.mk [])

/-- The literal entry list of the built-in default theme, from the map
literal in impl Default for Style (lines 152 to 1099 of style.rs),
entry for entry in source order. -/
def Style.defaultEntries : List (StyleKey × StyleVal) := [
  (StyleKey.mk "Button" "text_color" none, StyleVal.Color Color.black),
  (StyleKey.mk "Button" "text_color" (some "text-black"), StyleVal.Color Color.black),
  (StyleKey.mk "Button" "text_color" (some "text-white"), StyleVal.Color Color.white),
  (StyleKey.mk "Button" "text_color" (some "text-blue"), StyleVal.Color Color.blue),
  (StyleKey.mk "Button" "font" (some "font-space-mono"), StyleVal.String "SpaceMono-Bold"),
  (StyleKey.mk "Button" "font" (some "font-space-grotesk"), StyleVal.String "Space Grotesk"),
  (StyleKey.mk "Button" "font_size" none, StyleVal.Float 12.0),
  (StyleKey.mk "Button" "font_size" (some "text-xs"), StyleVal.Float 14.0),
  (StyleKey.mk "Button" "font_size" (some "text-sm"), StyleVal.Float 16.0),
  (StyleKey.mk "Button" "font_size" (some "text-md"), StyleVal.Float 18.0),
  (StyleKey.mk "Button" "font_size" (some "text-l"), StyleVal.Float 20.0),
  (StyleKey.mk "Button" "font_size" (some "text-xl"), StyleVal.Float 22.0),
  (StyleKey.mk "Button" "font_size" (some "text-2xl"), StyleVal.Float 24.0),
  (StyleKey.mk "Button" "font_size" (some "text-3xl"), StyleVal.Float 28.0),
  (StyleKey.mk "Button" "font_weight" none, StyleVal.FontWeight FontWeight.Normal),
  (StyleKey.mk "Button" "font_weight" (some "font-thin"), StyleVal.FontWeight FontWeight.Thin),
  (StyleKey.mk "Button" "font_weight" (some "font-extralight"), StyleVal.FontWeight FontWeight.ExtraLight),
  (StyleKey.mk "Button" "font_weight" (some "font-light"), StyleVal.FontWeight FontWeight.Light),
  (StyleKey.mk "Button" "font_weight" (some "font-normal"), StyleVal.FontWeight FontWeight.Normal),
  (StyleKey.mk "Button" "font_weight" (some "font-medium"), StyleVal.FontWeight FontWeight.Medium),
  (StyleKey.mk "Button" "font_weight" (some "font-semibold"), StyleVal.FontWeight FontWeight.Semibold),
  (StyleKey.mk "Button" "font_weight" (some "font-bold"), StyleVal.FontWeight FontWeight.Bold),
  (StyleKey.mk "Button" "font_weight" (some "font-extrabold"), StyleVal.FontWeight FontWeight.ExtraBold),
  (StyleKey.mk "Button" "font_weight" (some "font-black"), StyleVal.FontWeight FontWeight.Black),
  (StyleKey.mk "Button" "background_color" none, StyleVal.Color Color.white),
  (StyleKey.mk "Button" "background_color" (some "bg-black"), StyleVal.Color Color.black),
  (StyleKey.mk "Button" "background_color" (some "bg-white"), StyleVal.Color Color.white),
  (StyleKey.mk "Button" "background_color" (some "bg-transparent"), StyleVal.Color Color.transparent),
  (StyleKey.mk "Button" "highlight_color" none, StyleVal.Color Color.lightGrey),
  (StyleKey.mk "Button" "active_color" none, StyleVal.Color Color.midGrey),
  (StyleKey.mk "Button" "border_color" none, StyleVal.Color Color.black),
  (StyleKey.mk "Button" "border_width" none, StyleVal.Float 0.0),
  (StyleKey.mk "Button" "border_width" (some "border-0"), StyleVal.Float 0.0),
  (StyleKey.mk "Button" "border_width" (some "border"), StyleVal.Float 1.0),
  (StyleKey.mk "Button" "border_width" (some "border-2"), StyleVal.Float 2.0),
  (StyleKey.mk "Button" "border_width" (some "border-4"), StyleVal.Float 4.0),
  (StyleKey.mk "Button" "border_width" (some "border-8"), StyleVal.Float 8.0),
  (StyleKey.mk "Button" "border_width" (some "border-16"), StyleVal.Float 16.0),
  (StyleKey.mk "Button" "border_width" (some "border-0"), StyleVal.Float 0.0),
  (StyleKey.mk "Button" "radius" none, StyleVal.Float 0.0),
  (StyleKey.mk "IconButton" "radius" (some "rounded-sm"), StyleVal.Float 2.0),
  (StyleKey.mk "IconButton" "radius" (some "rounded"), StyleVal.Float 4.0),
  (StyleKey.mk "IconButton" "radius" (some "rounded-md"), StyleVal.Float 6.0),
  (StyleKey.mk "IconButton" "radius" (some "rounded-lg"), StyleVal.Float 8.0),
  (StyleKey.mk "IconButton" "radius" (some "rounded-xl"), StyleVal.Float 12.0),
  (StyleKey.mk "IconButton" "radius" (some "rounded-2xl"), StyleVal.Float 16.0),
  (StyleKey.mk "IconButton" "radius" (some "rounded-3xl"), StyleVal.Float 24.0),
  (StyleKey.mk "Button" "padding" none, StyleVal.Float 2.0),
  (StyleKey.mk "Button" "h_alignment" none, StyleVal.HorizontalPosition HorizontalPosition.Center),
  (StyleKey.mk "Button" "line_height" (some "leading-3"), StyleVal.Float 12.0),
  (StyleKey.mk "Button" "line_height" (some "leading-4"), StyleVal.Float 16.0),
  (StyleKey.mk "Button" "line_height" (some "leading-5"), StyleVal.Float 20.0),
  (StyleKey.mk "Button" "line_height" (some "leading-6"), StyleVal.Float 24.0),
  (StyleKey.mk "Button" "line_height" (some "leading-7"), StyleVal.Float 28.0),
  (StyleKey.mk "Button" "line_height" (some "leading-8"), StyleVal.Float 32.0),
  (StyleKey.mk "Button" "line_height" (some "leading-9"), StyleVal.Float 36.0),
  (StyleKey.mk "Button" "line_height" (some "leading-10"), StyleVal.Float 40.0),
  (StyleKey.mk "Button" "padding" (some "p-0"), StyleVal.Float 0.0),
  (StyleKey.mk "Button" "padding" (some "p-1"), StyleVal.Float 4.0),
  (StyleKey.mk "Button" "padding" (some "p-2"), StyleVal.Float 8.0),
  (StyleKey.mk "Button" "padding" (some "p-3"), StyleVal.Float 12.0),
  (StyleKey.mk "Button" "padding" (some "p-4"), StyleVal.Float 16.0),
  (StyleKey.mk "Button" "padding" (some "p-5"), StyleVal.Float 20.0),
  (StyleKey.mk "Button" "padding" (some "p-6"), StyleVal.Float 24.0),
  (StyleKey.mk "Button" "padding" (some "p-7"), StyleVal.Float 28.0),
  (StyleKey.mk "Button" "padding" (some "p-8"), StyleVal.Float 32.0),
  (StyleKey.mk "Button" "padding" (some "p-9"), StyleVal.Float 36.0),
  (StyleKey.mk "IconButton" "size" none, StyleVal.Size (size 18.0 18.0)),
  (StyleKey.mk "IconButton" "size" (some "btn-xs"), StyleVal.Size (size 18.0 18.0)),
  (StyleKey.mk "IconButton" "size" (some "btn-sm"), StyleVal.Size (size 24.0 24.0)),
  (StyleKey.mk "IconButton" "size" (some "btn-md"), StyleVal.Size (size 32.0 32.0)),
  (StyleKey.mk "IconButton" "size" (some "btn-xl"), StyleVal.Size (size 48.0 48.0)),
  (StyleKey.mk "IconButton" "size" (some "btn-xxl"), StyleVal.Size (size 88.0 88.0)),
  (StyleKey.mk "IconButton" "text_color" none, StyleVal.Color Color.black),
  (StyleKey.mk "IconButton" "font_size" none, StyleVal.Float 12.0),
  (StyleKey.mk "IconButton" "background_color" none, StyleVal.Color Color.black),
  (StyleKey.mk "IconButton" "background_color" (some "light"), StyleVal.Color Color.darkGrey),
  (StyleKey.mk "IconButton" "background_color" (some "bg-white"), StyleVal.Color Color.white),
  (StyleKey.mk "IconButton" "background_color" (some "bg-transparent"), StyleVal.Color Color.transparent),
  (StyleKey.mk "IconButton" "highlight_color" none, StyleVal.Color Color.lightGrey),
  (StyleKey.mk "IconButton" "active_color" none, StyleVal.Color (Color.rgb 132.0 132.0 132.0)),
  (StyleKey.mk "IconButton" "border_color" none, StyleVal.Color (Color.rgb 132.0 132.0 132.0)),
  (StyleKey.mk "IconButton" "border_width" none, StyleVal.Float 0.0),
  (StyleKey.mk "IconButton" "border_width" (some "border-0"), StyleVal.Float 0.0),
  (StyleKey.mk "IconButton" "border_width" (some "border"), StyleVal.Float 1.0),
  (StyleKey.mk "IconButton" "border_width" (some "border-2"), StyleVal.Float 2.0),
  (StyleKey.mk "IconButton" "border_width" (some "border-4"), StyleVal.Float 4.0),
  (StyleKey.mk "IconButton" "border_width" (some "border-8"), StyleVal.Float 8.0),
  (StyleKey.mk "IconButton" "border_width" (some "border-16"), StyleVal.Float 16.0),
  (StyleKey.mk "IconButton" "border_width" (some "border-0"), StyleVal.Float 0.0),
  (StyleKey.mk "IconButton" "padding" (some "p-0"), StyleVal.Float 0.0),
  (StyleKey.mk "IconButton" "padding" (some "p-1"), StyleVal.Float 4.0),
  (StyleKey.mk "IconButton" "padding" (some "p-2"), StyleVal.Float 8.0),
  (StyleKey.mk "IconButton" "padding" (some "p-3"), StyleVal.Float 12.0),
  (StyleKey.mk "IconButton" "padding" (some "p-4"), StyleVal.Float 16.0),
  (StyleKey.mk "IconButton" "padding" (some "p-5"), StyleVal.Float 20.0),
  (StyleKey.mk "IconButton" "padding" (some "p-6"), StyleVal.Float 24.0),
  (StyleKey.mk "IconButton" "padding" (some "p-7"), StyleVal.Float 28.0),
  (StyleKey.mk "IconButton" "padding" (some "p-8"), StyleVal.Float 32.0),
  (StyleKey.mk "IconButton" "padding" (some "p-9"), StyleVal.Float 36.0),
  (StyleKey.mk "IconButton" "radius" none, StyleVal.Float 0.0),
  (StyleKey.mk "IconButton" "radius" (some "rounded-sm"), StyleVal.Float 2.0),
  (StyleKey.mk "IconButton" "radius" (some "rounded"), StyleVal.Float 4.0),
  (StyleKey.mk "IconButton" "radius" (some "rounded-md"), StyleVal.Float 6.0),
  (StyleKey.mk "IconButton" "radius" (some "rounded-lg"), StyleVal.Float 8.0),
  (StyleKey.mk "IconButton" "radius" (some "rounded-xl"), StyleVal.Float 12.0),
  (StyleKey.mk "IconButton" "radius" (some "rounded-2xl"), StyleVal.Float 16.0),
  (StyleKey.mk "IconButton" "radius" (some "rounded-3xl"), StyleVal.Float 24.0),
  (StyleKey.mk "IconButton" "padding" none, StyleVal.Float 10.0),
  (StyleKey.mk "RadioButton" "text_color" none, StyleVal.Color Color.black),
  (StyleKey.mk "RadioButton" "font_size" none, StyleVal.Color Color.black),
  (StyleKey.mk "RadioButton" "background_color" none, StyleVal.Color Color.transparent),
  (StyleKey.mk "RadioButton" "highlight_color" none, StyleVal.Color Color.lightGrey),
  (StyleKey.mk "RadioButton" "active_color" none, StyleVal.Color (Color.rgb 45.0 138.0 255.0)),
  (StyleKey.mk "RadioButton" "border_color" none, StyleVal.Color (Color.rgb 83.0 83.0 83.0)),
  (StyleKey.mk "RadioButton" "border_width" none, StyleVal.Float 2.0),
  (StyleKey.mk "RadioButton" "radius" none, StyleVal.Float 4.0),
  (StyleKey.mk "RadioButton" "padding" none, StyleVal.Float 2.0),
  (StyleKey.mk "Select" "text_color" none, StyleVal.Color Color.black),
  (StyleKey.mk "Select" "font_size" none, StyleVal.Float 12.0),
  (StyleKey.mk "Select" "background_color" none, StyleVal.Color Color.white),
  (StyleKey.mk "Select" "highlight_color" none, StyleVal.Color Color.lightGrey),
  (StyleKey.mk "Select" "border_color" none, StyleVal.Color Color.black),
  (StyleKey.mk "Select" "caret_color" none, StyleVal.Color Color.black),
  (StyleKey.mk "Select" "border_width" none, StyleVal.Float 2.0),
  (StyleKey.mk "Select" "radius" none, StyleVal.Float 4.0),
  (StyleKey.mk "Select" "padding" none, StyleVal.Float 2.0),
  (StyleKey.mk "Select" "max_height" none, StyleVal.Float 250.0),
  (StyleKey.mk "Toggle" "background_color" none, StyleVal.Color Color.lightGrey),
  (StyleKey.mk "Toggle" "highlight_color" none, StyleVal.Color Color.darkGrey),
  (StyleKey.mk "Toggle" "active_color" none, StyleVal.Color Color.midGrey),
  (StyleKey.mk "Toggle" "border_color" none, StyleVal.Color Color.black),
  (StyleKey.mk "Toggle" "border_width" none, StyleVal.Float 2.0),
  (StyleKey.mk "ToolTip" "text_color" none, StyleVal.Color Color.black),
  (StyleKey.mk "ToolTip" "font_size" none, StyleVal.Float 12.0),
  (StyleKey.mk "ToolTip" "background_color" none, StyleVal.Color Color.white),
  (StyleKey.mk "ToolTip" "border_color" none, StyleVal.Color Color.black),
  (StyleKey.mk "ToolTip" "border_width" none, StyleVal.Float 2.0),
  (StyleKey.mk "ToolTip" "padding" none, StyleVal.Float 4.0),
  (StyleKey.mk "TextBox" "font_size" none, StyleVal.Float 12.0),
  (StyleKey.mk "TextBox" "font_size" (some "text-xs"), StyleVal.Float 14.0),
  (StyleKey.mk "TextBox" "font_size" (some "text-sm"), StyleVal.Float 16.0),
  (StyleKey.mk "TextBox" "font_size" (some "text-md"), StyleVal.Float 18.0),
  (StyleKey.mk "TextBox" "font_size" (some "text-l"), StyleVal.Float 20.0),
  (StyleKey.mk "TextBox" "font_size" (some "text-xl"), StyleVal.Float 22.0),
  (StyleKey.mk "TextBox" "font_size" (some "text-2xl"), StyleVal.Float 24.0),
  (StyleKey.mk "TextBox" "text_color" none, StyleVal.Color Color.white),
  (StyleKey.mk "TextBox" "text_color" (some "light"), StyleVal.Color (Color.rgb 14.0 14.0 14.0)),
  (StyleKey.mk "TextBox" "placeholder_color" none, StyleVal.Color (Color.rgb 132.0 132.0 132.0)),
  (StyleKey.mk "TextBox" "placeholder_color" (some "light"), StyleVal.Color (Color.rgb 148.0 148.0 148.0)),
  (StyleKey.mk "TextBox" "background_color" none, StyleVal.Color (Color.rgb 49.0 49.0 49.0)),
  (StyleKey.mk "TextBox" "background_color" (some "light"), StyleVal.Color Color.white),
  (StyleKey.mk "TextBox" "background_color" (some "bg-transparent"), StyleVal.Color Color.transparent),
  (StyleKey.mk "TextBox" "selection_color" none, StyleVal.Color Color.midGrey),
  (StyleKey.mk "TextBox" "cursor_color" none, StyleVal.Color Color.white),
  (StyleKey.mk "TextBox" "cursor_color" (some "light"), StyleVal.Color Color.black),
  (StyleKey.mk "TextBox" "border_color" none, StyleVal.Color (Color.rgb 132.0 132.0 132.0)),
  (StyleKey.mk "TextBox" "border_color" (some "light"), StyleVal.Color (Color.rgb 209.0 209.0 209.0)),
  (StyleKey.mk "TextBox" "border_width" none, StyleVal.BorderWidth (BorderWidth.mk 1.0 1.0 1.0 1.0)),
  (StyleKey.mk "TextBox" "border_width" (some "border-0"), StyleVal.BorderWidth (BorderWidth.mk 0.0 0.0 0.0 0.0)),
  (StyleKey.mk "TextBox" "border_width" (some "border"), StyleVal.BorderWidth (BorderWidth.mk 1.0 1.0 1.0 1.0)),
  (StyleKey.mk "TextBox" "border_width" (some "border-2"), StyleVal.BorderWidth (BorderWidth.mk 2.0 2.0 2.0 2.0)),
  (StyleKey.mk "TextBox" "border_width" (some "border-4"), StyleVal.BorderWidth (BorderWidth.mk 4.0 4.0 4.0 4.0)),
  (StyleKey.mk "TextBox" "border_width" (some "border-8"), StyleVal.BorderWidth (BorderWidth.mk 8.0 8.0 8.0 8.0)),
  (StyleKey.mk "TextBox" "border_width" (some "border-x-0"), StyleVal.BorderWidth (BorderWidth.mk 1.5 0.0 1.5 0.0)),
  (StyleKey.mk "TextBox" "border_width" (some "border-x-2"), StyleVal.BorderWidth (BorderWidth.mk 1.5 2.0 1.5 2.0)),
  (StyleKey.mk "TextBox" "border_width" (some "border-x-4"), StyleVal.BorderWidth (BorderWidth.mk 1.5 4.0 1.5 4.0)),
  (StyleKey.mk "TextBox" "border_width" (some "border-x-8"), StyleVal.BorderWidth (BorderWidth.mk 1.5 8.0 1.5 8.0)),
  (StyleKey.mk "TextBox" "border_width" (some "border-y-0"), StyleVal.BorderWidth (BorderWidth.mk 0.0 1.5 0.0 1.5)),
  (StyleKey.mk "TextBox" "border_width" (some "border-y-2"), StyleVal.BorderWidth (BorderWidth.mk 2.0 1.5 2.0 1.5)),
  (StyleKey.mk "TextBox" "border_width" (some "border-y-4"), StyleVal.BorderWidth (BorderWidth.mk 4.0 1.5 4.0 1.5)),
  (StyleKey.mk "TextBox" "border_width" (some "border-y-8"), StyleVal.BorderWidth (BorderWidth.mk 8.0 1.5 8.0 1.5)),
  (StyleKey.mk "TextBox" "border_width" (some "border-t-0"), StyleVal.BorderWidth (BorderWidth.mk 0.0 1.5 1.5 1.5)),
  (StyleKey.mk "TextBox" "border_width" (some "border-t-2"), StyleVal.BorderWidth (BorderWidth.mk 2.0 1.5 1.5 1.5)),
  (StyleKey.mk "TextBox" "border_width" (some "border-b-0"), StyleVal.BorderWidth (BorderWidth.mk 1.5 1.5 0.0 1.5)),
  (StyleKey.mk "TextBox" "border_width" (some "border-b-2"), StyleVal.BorderWidth (BorderWidth.mk 1.5 1.5 2.0 1.5)),
  (StyleKey.mk "TextBox" "border_width" (some "border-l-0"), StyleVal.BorderWidth (BorderWidth.mk 1.5 0.0 1.5 1.5)),
  (StyleKey.mk "TextBox" "border_width" (some "border-l-2"), StyleVal.BorderWidth (BorderWidth.mk 1.5 2.0 1.5 1.5)),
  (StyleKey.mk "TextBox" "border_width" (some "border-r-0"), StyleVal.BorderWidth (BorderWidth.mk 1.5 1.5 1.5 0.0)),
  (StyleKey.mk "TextBox" "border_width" (some "border-r-2"), StyleVal.BorderWidth (BorderWidth.mk 1.5 1.5 1.5 2.0)),
  (StyleKey.mk "TextBox" "padding" none, StyleVal.Float 1.0),
  (StyleKey.mk "TextBox" "font_weight" none, StyleVal.FontWeight FontWeight.Normal),
  (StyleKey.mk "Text" "size" none, StyleVal.Float 12.0),
  (StyleKey.mk "Text" "size" (some "text-xs"), StyleVal.Float 14.0),
  (StyleKey.mk "Text" "size" (some "text-sm"), StyleVal.Float 16.0),
  (StyleKey.mk "Text" "size" (some "text-md"), StyleVal.Float 18.0),
  (StyleKey.mk "Text" "size" (some "text-l"), StyleVal.Float 20.0),
  (StyleKey.mk "Text" "size" (some "text-xl"), StyleVal.Float 22.0),
  (StyleKey.mk "Text" "size" (some "text-2xl"), StyleVal.Float 24.0),
  (StyleKey.mk "Text" "size" (some "text-3xl"), StyleVal.Float 28.0),
  (StyleKey.mk "Text" "font" (some "font-space-mono"), StyleVal.String "SpaceMono-Bold"),
  (StyleKey.mk "Text" "font" (some "font-space-grotesk"), StyleVal.String "Space Grotesk"),
  (StyleKey.mk "Text" "font_weight" none, StyleVal.FontWeight FontWeight.Normal),
  (StyleKey.mk "Text" "font_weight" (some "font-thin"), StyleVal.FontWeight FontWeight.Thin),
  (StyleKey.mk "Text" "font_weight" (some "font-extralight"), StyleVal.FontWeight FontWeight.ExtraLight),
  (StyleKey.mk "Text" "font_weight" (some "font-light"), StyleVal.FontWeight FontWeight.Light),
  (StyleKey.mk "Text" "font_weight" (some "font-normal"), StyleVal.FontWeight FontWeight.Normal),
  (StyleKey.mk "Text" "font_weight" (some "font-medium"), StyleVal.FontWeight FontWeight.Medium),
  (StyleKey.mk "Text" "font_weight" (some "font-semibold"), StyleVal.FontWeight FontWeight.Semibold),
  (StyleKey.mk "Text" "font_weight" (some "font-bold"), StyleVal.FontWeight FontWeight.Bold),
  (StyleKey.mk "Text" "font_weight" (some "font-extrabold"), StyleVal.FontWeight FontWeight.ExtraBold),
  (StyleKey.mk "Text" "font_weight" (some "font-black"), StyleVal.FontWeight FontWeight.Black),
  (StyleKey.mk "Text" "color" none, StyleVal.Color Color.black),
  (StyleKey.mk "Text" "color" (some "light"), StyleVal.Color Color.white),
  (StyleKey.mk "Text" "color" (some "text-black"), StyleVal.Color Color.black),
  (StyleKey.mk "Text" "color" (some "text-white"), StyleVal.Color Color.white),
  (StyleKey.mk "Text" "color" (some "text-blue"), StyleVal.Color Color.blue),
  (StyleKey.mk "Text" "h_alignment" none, StyleVal.HorizontalPosition HorizontalPosition.Left),
  (StyleKey.mk "Text" "line_height" (some "leading-3"), StyleVal.Float 12.0),
  (StyleKey.mk "Text" "line_height" (some "leading-4"), StyleVal.Float 16.0),
  (StyleKey.mk "Text" "line_height" (some "leading-5"), StyleVal.Float 20.0),
  (StyleKey.mk "Text" "line_height" (some "leading-6"), StyleVal.Float 24.0),
  (StyleKey.mk "Text" "line_height" (some "leading-7"), StyleVal.Float 28.0),
  (StyleKey.mk "Text" "line_height" (some "leading-8"), StyleVal.Float 32.0),
  (StyleKey.mk "Text" "line_height" (some "leading-9"), StyleVal.Float 36.0),
  (StyleKey.mk "Text" "line_height" (some "leading-10"), StyleVal.Float 40.0),
  (StyleKey.mk "Text" "line_height" (some "leading-none"), StyleVal.Float 1.0),
  (StyleKey.mk "Text" "line_height" (some "leading-tight"), StyleVal.Float 1.25),
  (StyleKey.mk "Text" "line_height" (some "leading-snug"), StyleVal.Float 1.375),
  (StyleKey.mk "Text" "line_height" (some "leading-normal"), StyleVal.Float 1.5),
  (StyleKey.mk "Text" "line_height" (some "leading-relaxed"), StyleVal.Float 1.625),
  (StyleKey.mk "Text" "line_height" (some "leading-loose"), StyleVal.Float 2.0),
  (StyleKey.mk "Scroll" "x" none, StyleVal.Bool false),
  (StyleKey.mk "Scroll" "y" none, StyleVal.Bool false),
  (StyleKey.mk "Scroll" "x_bar_position" none, StyleVal.VerticalPosition VerticalPosition.Bottom),
  (StyleKey.mk "Scroll" "y_bar_position" none, StyleVal.HorizontalPosition HorizontalPosition.Right),
  (StyleKey.mk "Scroll" "bar_width" none, StyleVal.Float 12.0),
  (StyleKey.mk "Scroll" "bar_background_color" none, StyleVal.Color Color.lightGrey),
  (StyleKey.mk "Scroll" "bar_color" none, StyleVal.Color (Color.ofFloat 0.7)),
  (StyleKey.mk "Scroll" "bar_highlight_color" none, StyleVal.Color (Color.ofFloat 0.5)),
  (StyleKey.mk "Scroll" "bar_active_color" none, StyleVal.Color Color.darkGrey),
  (StyleKey.mk "Image" "radius" none, StyleVal.Float 0.0)
]

/-- impl Default for Style: the built-in default theme. -/
def Style.default : Style := Style.ofList Style.defaultEntries

/-- Style::new, whose body is Default::default(). -/
def Style.new : Style := Style.default

/-- The state of the theme registry: the single current Style table held
behind the Mutex in _current_style. -/
def RegistryState : Type := Style

/-- The table the OnceLock in _current_style initialises the registry
with on first access: Style::new(). -/
def current_style_init : RegistryState := Style.new

/-- set_current_style: replace the registry state with the given table
(the old state is discarded). -/
def set_current_style (s : Style) (_cur : RegistryState) : RegistryState := s

/-- get_current_style: look a key up in the current table. -/
def get_current_style (cur : RegistryState) (k : StyleKey) : Option StyleVal :=
  Style.get cur k

/-- current_style: the class-less lookup against the current table. -/
def current_style (cur : RegistryState) (component parameter_name : String) : Option StyleVal :=
  Style.style cur component parameter_name

/-- Per-instance style pins: struct StyleOverride, a map from parameter
name to StyleVal. -/
structure StyleOverride where
  entries : List (String × StyleVal)

/-- A component instance participating in the cascade through trait
Styled: its type name (Styled::name, static per component type), its
optional class string (Styled::class; the field is named cls because
class is a reserved word in Lean), and its override set. -/
structure Styled where
  name : String
  cls : Option String
  style_overrides : StyleOverride

/-- Styled::with_class: set the class string, replacing any previous
value. -/
def Styled.with_class (s : Styled) (c : String) : Styled :=
  { s with cls := some c }

/-- Styled::style: insert the value into the override set under the
parameter name (the Rust method takes any V with Into of StyleVal and
converts first; here the caller passes the converted StyleVal). -/
def Styled.style (s : Styled) (parameter : String) (val : StyleVal) : Styled :=
  { s with style_overrides := StyleOverride.mk ((parameter, val) :: s.style_overrides.entries) }

/-- Styled::maybe_style: insert only when a value is present. -/
def Styled.maybe_style (s : Styled) (parameter : String) (val : Option StyleVal) : Styled :=
  match val with
  | some v => { s with style_overrides := StyleOverride.mk ((parameter, v) :: s.style_overrides.entries) }
  | none => s

/-- Styled::style_key: the key for this instance at a parameter and
class. -/
def Styled.style_key (s : Styled) (parameter_name : String) (cls : Option String) : StyleKey :=
  StyleKey.mk s.name parameter_name cls

/-- Embedding of str::split with the separator a single space, as called
in Styled::style_val: empty pieces between, before, or after separators
are kept. The accumulator holds the characters of the current piece in
reverse. -/
def splitSpaceAux : List Char → List Char → List String
  | [], acc => [String.mk acc.reverse]
  | c :: rest, acc =>
    if c = ' ' then String.mk acc.reverse :: splitSpaceAux rest []
    else splitSpaceAux rest (c :: acc)

/-- split with the one-space separator on a String. -/
def splitSpace (s : String) : List String := splitSpaceAux s.data []

/-- Styled::style_val, the cascade resolver, against a given registry
state: the override for the parameter if present; else, when a class
string is present, the first class tag (in string order, splitting on
the space character) whose class-scoped key has an entry; else the
class-less key. -/
def Styled.style_val (s : Styled) (cur : RegistryState) (param : String) : Option StyleVal :=
  match assocFind s.style_overrides.entries param with
  | some v => some v
  | none =>
    match s.cls with
    | some c =>
      match (splitSpace c).findSome? (fun tag => get_current_style cur (s.style_key param (some tag))) with
      | some v => some v
      | none => get_current_style cur (s.style_key param none)
    | none => get_current_style cur (s.style_key param none)

/-- One interaction with the theme registry: a style_val query by some
component instance, or an installation of a new current theme. -/
inductive RegistryOp where
  | query (s : Styled) (param : String)
  | install (t : Style)

/-- Run a sequence of registry interactions from a given registry state,
collecting the result of every query in order. An install replaces the
state for the remainder of the sequence and produces no output. -/
def runRegistry : List RegistryOp → RegistryState → List (Option StyleVal)
  | [], _ => []
  | RegistryOp.query s p :: rest, cur => Styled.style_val s cur p :: runRegistry rest cur
  | RegistryOp.install t :: rest, cur => runRegistry rest (set_current_style t cur)

/-- Written from the words of the spec, for comparison with the source
in claim C2: splitting a class string on whitespace into class tags
(spec section 4.2, step 2), in the usual sense of whitespace-separated
words. -/
def specSplitWhitespaceAux : List Char → List Char → List String
  | [], [] => []
  | [], acc => [String.mk acc.reverse]
  | c :: rest, acc =>
    if c.isWhitespace then
      match acc with
      | [] => specSplitWhitespaceAux rest []
      | _ => String.mk acc.reverse :: specSplitWhitespaceAux rest []
    else specSplitWhitespaceAux rest (c :: acc)

/-- Written from the words of the spec: whitespace splitting on a
String. -/
def specSplitWhitespace (s : String) : List String := specSplitWhitespaceAux s.data []

/-- The data carried by the panic raised on a failed coercion: the
offending value as the panic message formats it (the StyleVal for the
From StyleVal impls, the Option StyleVal for the From Option impls) and
the words the message uses for the requested type. -/
inductive CoerceError where
  | mismatch (offending : StyleVal) (requested : String)
  | mismatchOpt (offending : Option StyleVal) (requested : String)

/-- The tag of each StyleVal variant, used to state which variant a
value holds. -/
inductive VariantTag where
  | Dimension
  | Size
  | Rect
  | Point
  | Pos
  | Color
  | Layout
  | HorizontalPosition
  | VerticalPosition
  | BorderWidth
  | FontWeight
  | Float
  | Int
  | Bool
  | String
deriving DecidableEq

/-- The variant a StyleVal holds. -/
def StyleVal.variant : StyleVal → VariantTag
  | .Dimension _ => .Dimension
  | .Size _ => .Size
  | .Rect _ => .Rect
  | .Point _ => .Point
  | .Pos _ => .Pos
  | .Color _ => .Color
  | .Layout _ => .Layout
  | .HorizontalPosition _ => .HorizontalPosition
  | .VerticalPosition _ => .VerticalPosition
  | .BorderWidth _ => .BorderWidth
  | .FontWeight _ => .FontWeight
  | .Float _ => .Float
  | .Int _ => .Int
  | .Bool _ => .Bool
  | .String _ => .String

/-- Embedding of the Rust f64 style payload (carried verbatim by the
engine, so embedded as Rat). -/
def F64 : Type := Rat

/-- Embedding of the Rust u32 style payload (carried verbatim by the
engine, so embedded as Nat). -/
def U32 : Type := Nat

/-- Embedding of the static string style payload. -/
def Str : Type := String

/-- impl From for StyleVal: the injection of BorderWidth into the value union,
which always succeeds. -/
def BorderWidth.toStyleVal (c : BorderWidth) : StyleVal := StyleVal.BorderWidth c

/-- impl From StyleVal for BorderWidth: the projection out of the value union,
with the panic on a variant mismatch embedded as Except.error. -/
def BorderWidth.fromStyleVal : StyleVal → Except CoerceError BorderWidth
  | StyleVal.BorderWidth c => Except.ok c
  | x => Except.error (CoerceError.mismatch x "border width")

/-- impl From Option StyleVal for BorderWidth: the projection of an optional
lookup result, with the panic on a mismatch or an absent value embedded
as Except.error. -/
def BorderWidth.fromOptStyleVal : Option StyleVal → Except CoerceError BorderWidth
  | some (StyleVal.BorderWidth c) => Except.ok c
  | x => Except.error (CoerceError.mismatchOpt x "border width")

/-- impl From for StyleVal: the injection of Color into the value union,
which always succeeds. -/
def Color.toStyleVal (c : Color) : StyleVal := StyleVal.Color c

/-- impl From StyleVal for Color: the projection out of the value union,
with the panic on a variant mismatch embedded as Except.error. -/
def Color.fromStyleVal : StyleVal → Except CoerceError Color
  | StyleVal.Color c => Except.ok c
  | x => Except.error (CoerceError.mismatch x "Color")

/-- impl From Option StyleVal for Color: the projection of an optional
lookup result, with the panic on a mismatch or an absent value embedded
as Except.error. -/
def Color.fromOptStyleVal : Option StyleVal → Except CoerceError Color
  | some (StyleVal.Color c) => Except.ok c
  | x => Except.error (CoerceError.mismatchOpt x "Color")

/-- impl From for StyleVal: the injection of Dimension into the value union,
which always succeeds. -/
def Dimension.toStyleVal (c : Dimension) : StyleVal := StyleVal.Dimension c

/-- impl From StyleVal for Dimension: the projection out of the value union,
with the panic on a variant mismatch embedded as Except.error. -/
def Dimension.fromStyleVal : StyleVal → Except CoerceError Dimension
  | StyleVal.Dimension c => Except.ok c
  | x => Except.error (CoerceError.mismatch x "Dimension")

/-- impl From Option StyleVal for Dimension: the projection of an optional
lookup result, with the panic on a mismatch or an absent value embedded
as Except.error. -/
def Dimension.fromOptStyleVal : Option StyleVal → Except CoerceError Dimension
  | some (StyleVal.Dimension c) => Except.ok c
  | x => Except.error (CoerceError.mismatchOpt x "Dimension")

/-- impl From for StyleVal: the injection of Size into the value union,
which always succeeds. -/
def Size.toStyleVal (c : Size) : StyleVal := StyleVal.Size c

/-- impl From StyleVal for Size: the projection out of the value union,
with the panic on a variant mismatch embedded as Except.error. -/
def Size.fromStyleVal : StyleVal → Except CoerceError Size
  | StyleVal.Size c => Except.ok c
  | x => Except.error (CoerceError.mismatch x "Size")

/-- impl From Option StyleVal for Size: the projection of an optional
lookup result, with the panic on a mismatch or an absent value embedded
as Except.error. -/
def Size.fromOptStyleVal : Option StyleVal → Except CoerceError Size
  | some (StyleVal.Size c) => Except.ok c
  | x => Except.error (CoerceError.mismatchOpt x "Size")

/-- impl From for StyleVal: the injection of Pos into the value union,
which always succeeds. -/
def Pos.toStyleVal (c : Pos) : StyleVal := StyleVal.Pos c

/-- impl From StyleVal for Pos: the projection out of the value union,
with the panic on a variant mismatch embedded as Except.error. -/
def Pos.fromStyleVal : StyleVal → Except CoerceError Pos
  | StyleVal.Pos c => Except.ok c
  | x => Except.error (CoerceError.mismatch x "Pos")

/-- impl From Option StyleVal for Pos: the projection of an optional
lookup result, with the panic on a mismatch or an absent value embedded
as Except.error. -/
def Pos.fromOptStyleVal : Option StyleVal → Except CoerceError Pos
  | some (StyleVal.Pos c) => Except.ok c
  | x => Except.error (CoerceError.mismatchOpt x "Pos")

/-- impl From for StyleVal: the injection of Point into the value union,
which always succeeds. -/
def Point.toStyleVal (c : Point) : StyleVal := StyleVal.Point c

/-- impl From StyleVal for Point: the projection out of the value union,
with the panic on a variant mismatch embedded as Except.error. -/
def Point.fromStyleVal : StyleVal → Except CoerceError Point
  | StyleVal.Point c => Except.ok c
  | x => Except.error (CoerceError.mismatch x "Point")

/-- impl From Option StyleVal for Point: the projection of an optional
lookup result, with the panic on a mismatch or an absent value embedded
as Except.error. -/
def Point.fromOptStyleVal : Option StyleVal → Except CoerceError Point
  | some (StyleVal.Point c) => Except.ok c
  | x => Except.error (CoerceError.mismatchOpt x "Point")

/-- impl From for StyleVal: the injection of Rect into the value union,
which always succeeds. -/
def Rect.toStyleVal (c : Rect) : StyleVal := StyleVal.Rect c

/-- impl From StyleVal for Rect: the projection out of the value union,
with the panic on a variant mismatch embedded as Except.error. -/
def Rect.fromStyleVal : StyleVal → Except CoerceError Rect
  | StyleVal.Rect c => Except.ok c
  | x => Except.error (CoerceError.mismatch x "Rect")

/-- impl From Option StyleVal for Rect: the projection of an optional
lookup result, with the panic on a mismatch or an absent value embedded
as Except.error. -/
def Rect.fromOptStyleVal : Option StyleVal → Except CoerceError Rect
  | some (StyleVal.Rect c) => Except.ok c
  | x => Except.error (CoerceError.mismatchOpt x "Rect")

/-- impl From for StyleVal: the injection of Layout into the value union,
which always succeeds. -/
def Layout.toStyleVal (c : Layout) : StyleVal := StyleVal.Layout c

/-- impl From StyleVal for Layout: the projection out of the value union,
with the panic on a variant mismatch embedded as Except.error. -/
def Layout.fromStyleVal : StyleVal → Except CoerceError Layout
  | StyleVal.Layout c => Except.ok c
  | x => Except.error (CoerceError.mismatch x "Layout")

/-- impl From Option StyleVal for Layout: the projection of an optional
lookup result, with the panic on a mismatch or an absent value embedded
as Except.error. -/
def Layout.fromOptStyleVal : Option StyleVal → Except CoerceError Layout
  | some (StyleVal.Layout c) => Except.ok c
  | x => Except.error (CoerceError.mismatchOpt x "Layout")

/-- impl From for StyleVal: the injection of VerticalPosition into the value union,
which always succeeds. -/
def VerticalPosition.toStyleVal (c : VerticalPosition) : StyleVal := StyleVal.VerticalPosition c

/-- impl From StyleVal for VerticalPosition: the projection out of the value union,
with the panic on a variant mismatch embedded as Except.error. -/
def VerticalPosition.fromStyleVal : StyleVal → Except CoerceError VerticalPosition
  | StyleVal.VerticalPosition c => Except.ok c
  | x => Except.error (CoerceError.mismatch x "VerticalPosition")

/-- impl From Option StyleVal for VerticalPosition: the projection of an optional
lookup result, with the panic on a mismatch or an absent value embedded
as Except.error. -/
def VerticalPosition.fromOptStyleVal : Option StyleVal → Except CoerceError VerticalPosition
  | some (StyleVal.VerticalPosition c) => Except.ok c
  | x => Except.error (CoerceError.mismatchOpt x "VerticalPosition")

/-- impl From for StyleVal: the injection of HorizontalPosition into the value union,
which always succeeds. -/
def HorizontalPosition.toStyleVal (c : HorizontalPosition) : StyleVal := StyleVal.HorizontalPosition c

/-- impl From StyleVal for HorizontalPosition: the projection out of the value union,
with the panic on a variant mismatch embedded as Except.error. -/
def HorizontalPosition.fromStyleVal : StyleVal → Except CoerceError HorizontalPosition
  | StyleVal.HorizontalPosition c => Except.ok c
  | x => Except.error (CoerceError.mismatch x "HorizontalPosition")

/-- impl From Option StyleVal for HorizontalPosition: the projection of an optional
lookup result, with the panic on a mismatch or an absent value embedded
as Except.error. -/
def HorizontalPosition.fromOptStyleVal : Option StyleVal → Except CoerceError HorizontalPosition
  | some (StyleVal.HorizontalPosition c) => Except.ok c
  | x => Except.error (CoerceError.mismatchOpt x "HorizontalPosition")

/-- impl From for StyleVal: the injection of FontWeight into the value union,
which always succeeds. -/
def FontWeight.toStyleVal (c : FontWeight) : StyleVal := StyleVal.FontWeight c

/-- impl From StyleVal for FontWeight: the projection out of the value union,
with the panic on a variant mismatch embedded as Except.error. -/
def FontWeight.fromStyleVal : StyleVal → Except CoerceError FontWeight
  | StyleVal.FontWeight c => Except.ok c
  | x => Except.error (CoerceError.mismatch x "FontWeight")

/-- impl From Option StyleVal for FontWeight: the projection of an optional
lookup result, with the panic on a mismatch or an absent value embedded
as Except.error. -/
def FontWeight.fromOptStyleVal : Option StyleVal → Except CoerceError FontWeight
  | some (StyleVal.FontWeight c) => Except.ok c
  | x => Except.error (CoerceError.mismatchOpt x "FontWeight")

/-- impl From for StyleVal: the injection of F64 into the value union,
which always succeeds. -/
def F64.toStyleVal (c : F64) : StyleVal := StyleVal.Float c

/-- impl From StyleVal for F64: the projection out of the value union,
with the panic on a variant mismatch embedded as Except.error. -/
def F64.fromStyleVal : StyleVal → Except CoerceError F64
  | StyleVal.Float c => Except.ok c
  | x => Except.error (CoerceError.mismatch x "float")

/-- impl From for StyleVal: the injection of U32 into the value union,
which always succeeds. -/
def U32.toStyleVal (c : U32) : StyleVal := StyleVal.Int c

/-- impl From StyleVal for U32: the projection out of the value union,
with the panic on a variant mismatch embedded as Except.error. -/
def U32.fromStyleVal : StyleVal → Except CoerceError U32
  | StyleVal.Int c => Except.ok c
  | x => Except.error (CoerceError.mismatch x "int")

/-- impl From for StyleVal: the injection of Bool into the value union,
which always succeeds. -/
def Bool.toStyleVal (c : Bool) : StyleVal := StyleVal.Bool c

/-- impl From StyleVal for Bool: the projection out of the value union,
with the panic on a variant mismatch embedded as Except.error. -/
def Bool.fromStyleVal : StyleVal → Except CoerceError Bool
  | StyleVal.Bool c => Except.ok c
  | x => Except.error (CoerceError.mismatch x "bool")

/-- impl From for StyleVal: the injection of Str into the value union,
which always succeeds. -/
def Str.toStyleVal (c : Str) : StyleVal := StyleVal.String c

/-- impl From StyleVal for Str: the projection out of the value union,
with the panic on a variant mismatch embedded as Except.error. -/
def Str.fromStyleVal : StyleVal → Except CoerceError Str
  | StyleVal.String c => Except.ok c
  | x => Except.error (CoerceError.mismatch x "string")

/-- Unfolding of List.findSome? on a cons cell. -/
theorem findSome_cons_unfold {α β : Type _} (f : α → Option β) (a : α) (as : List α) :
    (a :: as).findSome? f =
      match f a with
      | some b => some b
      | none => as.findSome? f := rfl

/-- If the function returns none on every element, findSome? returns
none. -/
theorem findSome_all_none {α β : Type _} (f : α → Option β) :
    ∀ l : List α, (∀ a ∈ l, f a = none) → l.findSome? f = none
  | [], _ => rfl
  | a :: as, h => by
    have ha : f a = none := h a (List.mem_cons_self a as)
    have hr := findSome_all_none f as (fun x hx => h x (List.mem_cons_of_mem a hx))
    rw [findSome_cons_unfold, ha, hr]

/-- If the element at index i maps to some v and every earlier element
maps to none, findSome? returns v. -/
theorem findSome_first_hit {α β : Type _} (f : α → Option β) :
    ∀ (l : List α) (i : Nat) (hi : i < l.length) (v : β),
      f (l.get ⟨i, hi⟩) = some v →
      (∀ j (hj : j < i), f (l.get ⟨j, Nat.lt_trans hj hi⟩) = none) →
      l.findSome? f = some v
  | [], i, hi, _, _, _ => absurd hi (by simp)
  | a :: as, 0, _, v, hv, _ => by
    have hv0 : f a = some v := hv
    rw [findSome_cons_unfold, hv0]
  | a :: as, n + 1, hi, v, hv, hprev => by
    have ha : f a = none := hprev 0 (Nat.succ_pos n)
    have hr := findSome_first_hit f as n (Nat.lt_of_succ_lt_succ hi) v hv
      (fun j hj => hprev (j + 1) (Nat.succ_lt_succ hj))
    rw [findSome_cons_unfold, ha, hr]

/-- C1: for every Styled component instance whose override set contains
parameter P, style_val P returns the value of the override, whatever the
class string of the instance and whatever the current theme table
contains (both are universally quantified here, so in particular the
theme may hold a class-scoped entry matching the class of the
instance). -/
theorem override_always_wins (cur : RegistryState) (s : Styled) (param : String)
    (v : StyleVal) (h : assocFind s.style_overrides.entries param = some v) :
    s.style_val cur param = some v := by
  unfold Styled.style_val
  rw [h]

/-- The theme table of the scenario of spec section 8: a class-less
white entry and a dark black entry for the color of a Widget. -/
def scenarioTable : Style :=
  ((Style.mk []).add (StyleKey.new "Widget" "color" none) (StyleVal.Color Color.white)).add
    (StyleKey.new "Widget" "color" (some "dark")) (StyleVal.Color Color.black)

/-- Witness for C1: an instance with class dark and a blue override for
color resolves color to blue even though the theme holds a matching dark
entry. -/
theorem override_always_wins_witness :
    assocFind (StyleOverride.mk [("color", StyleVal.Color Color.blue)]).entries "color" =
      some (StyleVal.Color Color.blue) ∧
    Styled.style_val (Styled.mk "Widget" (some "dark")
        (StyleOverride.mk [("color", StyleVal.Color Color.blue)])) scenarioTable "color" =
      some (StyleVal.Color Color.blue) :=
  ⟨rfl, override_always_wins scenarioTable
    (Styled.mk "Widget" (some "dark") (StyleOverride.mk [("color", StyleVal.Color Color.blue)]))
    "color" (StyleVal.Color Color.blue) rfl⟩

/-- C3: with no override for the parameter and no class tag whose
class-scoped key has an entry, style_val returns exactly the lookup of
the class-less key in the current table, hence the entry when one is
present and the explicit absent result none otherwise; style_val is a
total function into Option StyleVal, so no error is possible. -/
theorem default_fallback (cur : RegistryState) (s : Styled) (param : String)
    (hov : assocFind s.style_overrides.entries param = none)
    (hcls : ∀ c, s.cls = some c →
      ∀ tag ∈ splitSpace c, get_current_style cur (s.style_key param (some tag)) = none) :
    s.style_val cur param = get_current_style cur (s.style_key param none) := by
  cases hc : s.cls with
  | none =>
    simp only [Styled.style_val, hov, hc]
  | some c =>
    simp only [Styled.style_val, hov, hc]
    rw [findSome_all_none _ _ (hcls c hc)]

/-- Witness for C3: an instance with class dark and no override, against
a theme holding only the class-less white entry, resolves to white; an
instance whose parameter has no entry at all resolves to none. -/
theorem default_fallback_witness :
    assocFind (StyleOverride.mk []).entries "color" = none ∧
    Styled.style_val (Styled.mk "Widget" (some "dark") (StyleOverride.mk []))
      ((Style.mk []).add (StyleKey.new "Widget" "color" none) (StyleVal.Color Color.white))
      "color" = some (StyleVal.Color Color.white) := by
  refine ⟨rfl, ?_⟩
  have h := default_fallback
    ((Style.mk []).add (StyleKey.new "Widget" "color" none) (StyleVal.Color Color.white))
    (Styled.mk "Widget" (some "dark") (StyleOverride.mk [])) "color" rfl
    (by
      intro c hc tag htag
      cases hc
      have he : splitSpace "dark" = ["dark"] := rfl
      rw [he, List.mem_singleton] at htag
      subst htag
      rfl)
  exact h

/-- C7: table construction is last-write-wins and additive: adding twice
at the same key maps the key to the second value, adding maps the key to
the added value, and an add leaves the entry at every other key exactly
as it was (nothing is ever removed). -/
theorem add_last_write_wins (t : Style) (k k' : StyleKey) (v v1 v2 : StyleVal) :
    ((t.add k v1).add k v2).get k = some v2 ∧
    (t.add k v).get k = some v ∧
    (k' ≠ k → (t.add k v).get k' = t.get k') := by
  refine ⟨?_, ?_, ?_⟩
  · simp [Style.add, Style.insertEntry, Style.get, assocFind]
  · simp [Style.add, Style.insertEntry, Style.get, assocFind]
  · intro h
    simp [Style.add, Style.insertEntry, Style.get, assocFind, Ne.symm h]

/-- Witness for C7: two adds at one key then a read of that key and of a
different key. -/
theorem add_last_write_wins_witness :
    (StyleKey.new "Widget" "radius" none ≠ StyleKey.new "Widget" "color" none) ∧
    (((Style.mk []).add (StyleKey.new "Widget" "color" none) (StyleVal.Bool true)).add
        (StyleKey.new "Widget" "color" none) (StyleVal.Bool false)).get
      (StyleKey.new "Widget" "color" none) = some (StyleVal.Bool false) ∧
    ((Style.mk []).add (StyleKey.new "Widget" "color" none) (StyleVal.Bool true)).get
      (StyleKey.new "Widget" "radius" none) = (Style.mk []).get (StyleKey.new "Widget" "radius" none) :=
  ⟨by decide,
   (add_last_write_wins (Style.mk []) (StyleKey.new "Widget" "color" none)
     (StyleKey.new "Widget" "radius" none) (StyleVal.Bool true) (StyleVal.Bool true)
     (StyleVal.Bool false)).1,
   (add_last_write_wins (Style.mk []) (StyleKey.new "Widget" "color" none)
     (StyleKey.new "Widget" "radius" none) (StyleVal.Bool true) (StyleVal.Bool true)
     (StyleVal.Bool false)).2.2 (by decide)⟩

/-- C10: maybe_style with an absent value returns the instance with its
class string and override set untouched, and maybe_style with a present
value is exactly style. -/
theorem maybe_style_noop_or_style (s : Styled) (parameter : String) (v : StyleVal) :
    s.maybe_style parameter none = s ∧
    s.maybe_style parameter (some v) = s.style parameter v :=
  ⟨rfl, rfl⟩

/-- C2 as amended: with no override for the parameter and a class string
present, style_val splits the class string on the single space character
into an ordered sequence of tags (adjacent separators leave empty tags)
and returns the current table entry of the first tag, in string order,
whose class-scoped key has an entry, short-circuiting the remaining tags
and never merging values across tags. -/
theorem first_class_tag_wins (cur : RegistryState) (s : Styled) (param c : String)
    (hcls : s.cls = some c) (hov : assocFind s.style_overrides.entries param = none)
    (i : Nat) (v : StyleVal) (hi : i < (splitSpace c).length)
    (hv : get_current_style cur (s.style_key param (some ((splitSpace c).get ⟨i, hi⟩))) = some v)
    (hprev : ∀ j (hj : j < i),
      get_current_style cur (s.style_key param (some ((splitSpace c).get ⟨j, Nat.lt_trans hj hi⟩))) = none) :
    s.style_val cur param = some v := by
  simp only [Styled.style_val, hov, hcls]
  rw [findSome_first_hit _ (splitSpace c) i hi v hv hprev]

/-- A theme holding, for parameter P of component type Widget, only the
entry scoped to class b. -/
def tagTable : Style :=
  (Style.mk []).add (StyleKey.new "Widget" "P" (some "b")) (StyleVal.Color Color.black)

/-- An instance of type Widget whose class string separates the tags a
and b with a tab character instead of a space. -/
def tabInstance : Styled := Styled.mk "Widget" (some "a\tb") (StyleOverride.mk [])

/-- An instance of type Widget with class string a b (space
separated). -/
def abInstance : Styled := Styled.mk "Widget" (some "a b") (StyleOverride.mk [])

/-- Counterexample to C2 as stated: splitting the class string of
tabInstance on whitespace gives the tags a and b, and the first of those
with a class-scoped entry in tagTable is b, so the claim predicts the
value of the b entry; but style_val, which splits on the space character
only, finds no entry and returns none. -/
theorem class_split_counterexample :
    specSplitWhitespace "a\tb" = ["a", "b"] ∧
    (specSplitWhitespace "a\tb").findSome?
      (fun tag => get_current_style tagTable (tabInstance.style_key "P" (some tag))) =
      some (StyleVal.Color Color.black) ∧
    assocFind tabInstance.style_overrides.entries "P" = none ∧
    splitSpace "a\tb" = ["a\tb"] ∧
    tabInstance.style_val tagTable "P" = none ∧
    tabInstance.style_val tagTable "P" ≠ some (StyleVal.Color Color.black) :=
  ⟨by decide, rfl, rfl, by decide, rfl, fun h => nomatch h⟩

/-- Witness for C2 as amended: class string a b where only the b entry
exists; the first tag a misses, the second tag b hits, and style_val
returns the b entry. -/
theorem first_class_tag_wins_witness :
    get_current_style tagTable (abInstance.style_key "P" (some "b")) =
      some (StyleVal.Color Color.black) ∧
    get_current_style tagTable (abInstance.style_key "P" (some "a")) = none ∧
    abInstance.style_val tagTable "P" = some (StyleVal.Color Color.black) := by
  refine ⟨rfl, rfl, ?_⟩
  exact first_class_tag_wins tagTable abInstance "P" "a b" rfl rfl 1
    (StyleVal.Color Color.black) (by decide) rfl
    (fun j hj => by
      have hj0 : j = 0 := Nat.lt_one_iff.mp hj
      subst hj0
      rfl)

/-- C4: installing a new table is total and immediate: a trace that
installs newTable resolves every later query (by any instance, type,
parameter and class) against newTable, while the results of the queries
completed before the swap are exactly those of the trace without the
swap. -/
theorem theme_swap_total_and_immediate (pre post : List RegistryOp) (t : Style)
    (cur : RegistryState) :
    runRegistry (pre ++ RegistryOp.install t :: post) cur =
      runRegistry pre cur ++ runRegistry post t := by
  induction pre generalizing cur with
  | nil => rfl
  | cons op rest ih =>
    cases op with
    | query s p => simp [runRegistry, ih]
    | install t2 => simp [runRegistry, set_current_style, ih]

/-- A query-only trace leaves the registry state untouched: every query
resolves against the same table. -/
theorem run_queries_pure (qs : List (Styled × String)) :
    ∀ cur : RegistryState,
      runRegistry (qs.map (fun q => RegistryOp.query q.1 q.2)) cur =
        qs.map (fun q => Styled.style_val q.1 cur q.2) := by
  induction qs with
  | nil => intro cur; rfl
  | cons q rest ih => intro cur; simp [runRegistry, ih]

/-- C8: the table the registry is lazily initialised with on first
access is Style::new(), which is the built-in default theme, so the
first and every subsequent query of a trace made before any install
resolves against Style.default; that table is populated with the 232
baseline entries of the source, for example the class-less Button
text_color baseline. -/
theorem lazy_default_before_install (qs : List (Styled × String)) :
    current_style_init = Style.default ∧
    runRegistry (qs.map (fun q => RegistryOp.query q.1 q.2)) current_style_init =
      qs.map (fun q => Styled.style_val q.1 Style.default q.2) ∧
    Style.default.entries.length = 232 ∧
    Style.default.get (StyleKey.new "Button" "text_color" none) =
      some (StyleVal.Color Color.black) :=
  ⟨rfl, run_queries_pure qs current_style_init, by decide, rfl⟩

/-- Assemble a custom theme by a sequence of adds, as a caller writing
Style::new().add(...).add(...) does. -/
def Style.addAll (t : Style) (l : List (StyleKey × StyleVal)) : Style :=
  l.foldl (fun s kv => s.add kv.1 kv.2) t

/-- A key not among the added keys reads the same before and after a
sequence of adds. -/
theorem addAll_get_of_not_mem (l : List (StyleKey × StyleVal)) :
    ∀ (t : Style) (k : StyleKey), k ∉ l.map Prod.fst → (t.addAll l).get k = t.get k := by
  induction l with
  | nil => intro t k _; rfl
  | cons kv rest ih =>
    intro t k h
    rw [List.map_cons, List.mem_cons] at h
    push_neg at h
    show ((t.add kv.1 kv.2).addAll rest).get k = t.get k
    rw [ih (t.add kv.1 kv.2) k h.2]
    simp [Style.add, Style.insertEntry, Style.get, assocFind, Ne.symm h.1]

/-- C9: Style::new() returns the fully populated built-in default theme:
it is Style::default() itself (its body is Default.default), its table
is not empty, and a custom theme assembled by adds on Style::new()
answers every key not among the added keys exactly as the default theme
does. -/
theorem new_is_default_theme (adds : List (StyleKey × StyleVal)) (k : StyleKey)
    (h : k ∉ adds.map Prod.fst) :
    Style.new = Style.default ∧
    Style.new.entries ≠ [] ∧
    (Style.new.addAll adds).get k = Style.default.get k := by
  have hlen : Style.new.entries.length = 232 := by decide
  refine ⟨rfl, ?_, ?_⟩
  · intro hE
    rw [hE] at hlen
    exact absurd hlen (by decide)
  · exact addAll_get_of_not_mem adds Style.new k h

/-- Witness for C9: adding a Widget entry to Style::new() leaves the
baseline Button text_color entry readable, equal to its value in the
default theme. -/
theorem new_is_default_theme_witness :
    (StyleKey.new "Button" "text_color" none ∉
      ([(StyleKey.new "Widget" "color" none, StyleVal.Bool true)].map Prod.fst)) ∧
    (Style.new.addAll [(StyleKey.new "Widget" "color" none, StyleVal.Bool true)]).get
        (StyleKey.new "Button" "text_color" none) =
      Style.default.get (StyleKey.new "Button" "text_color" none) :=
  ⟨by decide,
   (new_is_default_theme [(StyleKey.new "Widget" "color" none, StyleVal.Bool true)]
     (StyleKey.new "Button" "text_color" none) (by decide)).2.2⟩

/-- C5: coercing a value union of one variant to any other concrete
target type fails, producing the error (the embedding of the panic) that
carries the offending value and the words the panic message uses for the
requested type; likewise coercing an absent optional value where a value
is mandatory; no branch returns a default or wrong-typed value. -/
theorem mismatch_fails_loudly :
    (∀ v : StyleVal, v.variant ≠ VariantTag.BorderWidth →
      BorderWidth.fromStyleVal v = Except.error (CoerceError.mismatch v "border width")) ∧
    (∀ v : StyleVal, v.variant ≠ VariantTag.BorderWidth →
      BorderWidth.fromOptStyleVal (some v) = Except.error (CoerceError.mismatchOpt (some v) "border width")) ∧
    (BorderWidth.fromOptStyleVal none = Except.error (CoerceError.mismatchOpt none "border width")) ∧
    (∀ v : StyleVal, v.variant ≠ VariantTag.Color →
      Color.fromStyleVal v = Except.error (CoerceError.mismatch v "Color")) ∧
    (∀ v : StyleVal, v.variant ≠ VariantTag.Color →
      Color.fromOptStyleVal (some v) = Except.error (CoerceError.mismatchOpt (some v) "Color")) ∧
    (Color.fromOptStyleVal none = Except.error (CoerceError.mismatchOpt none "Color")) ∧
    (∀ v : StyleVal, v.variant ≠ VariantTag.Dimension →
      Dimension.fromStyleVal v = Except.error (CoerceError.mismatch v "Dimension")) ∧
    (∀ v : StyleVal, v.variant ≠ VariantTag.Dimension →
      Dimension.fromOptStyleVal (some v) = Except.error (CoerceError.mismatchOpt (some v) "Dimension")) ∧
    (Dimension.fromOptStyleVal none = Except.error (CoerceError.mismatchOpt none "Dimension")) ∧
    (∀ v : StyleVal, v.variant ≠ VariantTag.Size →
      Size.fromStyleVal v = Except.error (CoerceError.mismatch v "Size")) ∧
    (∀ v : StyleVal, v.variant ≠ VariantTag.Size →
      Size.fromOptStyleVal (some v) = Except.error (CoerceError.mismatchOpt (some v) "Size")) ∧
    (Size.fromOptStyleVal none = Except.error (CoerceError.mismatchOpt none "Size")) ∧
    (∀ v : StyleVal, v.variant ≠ VariantTag.Pos →
      Pos.fromStyleVal v = Except.error (CoerceError.mismatch v "Pos")) ∧
    (∀ v : StyleVal, v.variant ≠ VariantTag.Pos →
      Pos.fromOptStyleVal (some v) = Except.error (CoerceError.mismatchOpt (some v) "Pos")) ∧
    (Pos.fromOptStyleVal none = Except.error (CoerceError.mismatchOpt none "Pos")) ∧
    (∀ v : StyleVal, v.variant ≠ VariantTag.Point →
      Point.fromStyleVal v = Except.error (CoerceError.mismatch v "Point")) ∧
    (∀ v : StyleVal, v.variant ≠ VariantTag.Point →
      Point.fromOptStyleVal (some v) = Except.error (CoerceError.mismatchOpt (some v) "Point")) ∧
    (Point.fromOptStyleVal none = Except.error (CoerceError.mismatchOpt none "Point")) ∧
    (∀ v : StyleVal, v.variant ≠ VariantTag.Rect →
      Rect.fromStyleVal v = Except.error (CoerceError.mismatch v "Rect")) ∧
    (∀ v : StyleVal, v.variant ≠ VariantTag.Rect →
      Rect.fromOptStyleVal (some v) = Except.error (CoerceError.mismatchOpt (some v) "Rect")) ∧
    (Rect.fromOptStyleVal none = Except.error (CoerceError.mismatchOpt none "Rect")) ∧
    (∀ v : StyleVal, v.variant ≠ VariantTag.Layout →
      Layout.fromStyleVal v = Except.error (CoerceError.mismatch v "Layout")) ∧
    (∀ v : StyleVal, v.variant ≠ VariantTag.Layout →
      Layout.fromOptStyleVal (some v) = Except.error (CoerceError.mismatchOpt (some v) "Layout")) ∧
    (Layout.fromOptStyleVal none = Except.error (CoerceError.mismatchOpt none "Layout")) ∧
    (∀ v : StyleVal, v.variant ≠ VariantTag.VerticalPosition →
      VerticalPosition.fromStyleVal v = Except.error (CoerceError.mismatch v "VerticalPosition")) ∧
    (∀ v : StyleVal, v.variant ≠ VariantTag.VerticalPosition →
      VerticalPosition.fromOptStyleVal (some v) = Except.error (CoerceError.mismatchOpt (some v) "VerticalPosition")) ∧
    (VerticalPosition.fromOptStyleVal none = Except.error (CoerceError.mismatchOpt none "VerticalPosition")) ∧
    (∀ v : StyleVal, v.variant ≠ VariantTag.HorizontalPosition →
      HorizontalPosition.fromStyleVal v = Except.error (CoerceError.mismatch v "HorizontalPosition")) ∧
    (∀ v : StyleVal, v.variant ≠ VariantTag.HorizontalPosition →
      HorizontalPosition.fromOptStyleVal (some v) = Except.error (CoerceError.mismatchOpt (some v) "HorizontalPosition")) ∧
    (HorizontalPosition.fromOptStyleVal none = Except.error (CoerceError.mismatchOpt none "HorizontalPosition")) ∧
    (∀ v : StyleVal, v.variant ≠ VariantTag.FontWeight →
      FontWeight.fromStyleVal v = Except.error (CoerceError.mismatch v "FontWeight")) ∧
    (∀ v : StyleVal, v.variant ≠ VariantTag.FontWeight →
      FontWeight.fromOptStyleVal (some v) = Except.error (CoerceError.mismatchOpt (some v) "FontWeight")) ∧
    (FontWeight.fromOptStyleVal none = Except.error (CoerceError.mismatchOpt none "FontWeight")) ∧
    (∀ v : StyleVal, v.variant ≠ VariantTag.Float →
      F64.fromStyleVal v = Except.error (CoerceError.mismatch v "float")) ∧
    (∀ v : StyleVal, v.variant ≠ VariantTag.Int →
      U32.fromStyleVal v = Except.error (CoerceError.mismatch v "int")) ∧
    (∀ v : StyleVal, v.variant ≠ VariantTag.Bool →
      Bool.fromStyleVal v = Except.error (CoerceError.mismatch v "bool")) ∧
    (∀ v : StyleVal, v.variant ≠ VariantTag.String →
      Str.fromStyleVal v = Except.error (CoerceError.mismatch v "string")) := by
  refine ⟨?_, ?_, rfl, ?_, ?_, rfl, ?_, ?_, rfl, ?_, ?_, rfl, ?_, ?_, rfl, ?_, ?_, rfl, ?_, ?_, rfl, ?_, ?_, rfl, ?_, ?_, rfl, ?_, ?_, rfl, ?_, ?_, rfl, ?_, ?_, ?_, ?_⟩ <;>
    (intro v h; cases v <;> first | rfl | exact absurd rfl h)

/-- C6: for every concrete style type having both an injection into the
value union and a projection out of it, the injection always succeeds
(it is a total function) and projecting the injected value gives the
value back, for every representable value. -/
theorem round_trip_identity :
    (∀ c : BorderWidth, BorderWidth.fromStyleVal (BorderWidth.toStyleVal c) = Except.ok c) ∧
    (∀ c : Color, Color.fromStyleVal (Color.toStyleVal c) = Except.ok c) ∧
    (∀ c : Dimension, Dimension.fromStyleVal (Dimension.toStyleVal c) = Except.ok c) ∧
    (∀ c : Size, Size.fromStyleVal (Size.toStyleVal c) = Except.ok c) ∧
    (∀ c : Pos, Pos.fromStyleVal (Pos.toStyleVal c) = Except.ok c) ∧
    (∀ c : Point, Point.fromStyleVal (Point.toStyleVal c) = Except.ok c) ∧
    (∀ c : Rect, Rect.fromStyleVal (Rect.toStyleVal c) = Except.ok c) ∧
    (∀ c : Layout, Layout.fromStyleVal (Layout.toStyleVal c) = Except.ok c) ∧
    (∀ c : VerticalPosition, VerticalPosition.fromStyleVal (VerticalPosition.toStyleVal c) = Except.ok c) ∧
    (∀ c : HorizontalPosition, HorizontalPosition.fromStyleVal (HorizontalPosition.toStyleVal c) = Except.ok c) ∧
    (∀ c : FontWeight, FontWeight.fromStyleVal (FontWeight.toStyleVal c) = Except.ok c) ∧
    (∀ c : F64, F64.fromStyleVal (F64.toStyleVal c) = Except.ok c) ∧
    (∀ c : U32, U32.fromStyleVal (U32.toStyleVal c) = Except.ok c) ∧
    (∀ c : Bool, Bool.fromStyleVal (Bool.toStyleVal c) = Except.ok c) ∧
    (∀ c : Str, Str.fromStyleVal (Str.toStyleVal c) = Except.ok c) := by
  refine ⟨?_, ?_, ?_, ?_, ?_, ?_, ?_, ?_, ?_, ?_, ?_, ?_, ?_, ?_, ?_⟩ <;> (intro c; rfl)

/-- Witness for C5: coercing a Bool-variant value to Color yields the
error carrying that value and the requested type. -/
theorem mismatch_fails_loudly_witness :
    (StyleVal.Bool true).variant ≠ VariantTag.Color ∧
    Color.fromStyleVal (StyleVal.Bool true) =
      Except.error (CoerceError.mismatch (StyleVal.Bool true) "Color") :=
  ⟨by decide, mismatch_fails_loudly.2.2.2.1 (StyleVal.Bool true) (by decide)⟩
